import Mathlib

/-
Verification of the error-translation layer in `src/rust/src/error.rs` of
the `cryptography` repository: the `CryptographyError` union, the `From`
absorptions of each domain error, `add_location`, and the conversion
`From<CryptographyError> for pyo3::PyErr` (the host-exception
materializer).  External collaborator types (the `asn1`, `pem`, `pyo3`
and `openssl` crates) are shallowly embedded with just the structure this
file observes of them.
-/

set_option autoImplicit false

namespace Pyca

/-- Model of `asn1::ParseLocation` from the external `asn1` crate: a
contextual marker (a field name or a sequence index) on the location path
of a parsing failure. -/
inductive ParseLocation where
  | field (name : String)
  | index (n : Nat)
  deriving DecidableEq, Repr

/-- Model of `asn1::ParseError` from the external `asn1` crate: an error
kind (kept as an abstract numeric code, since this repository never
inspects it) together with the ordered location path. -/
structure ParseError where
  kind : Nat
  locations : List ParseLocation
  deriving DecidableEq, Repr

/-- Model of the external `asn1` crate's `ParseError::add_location`,
which appends the new location to the end of the location path (the
spec's external-interface contract: a location-path type with an append
operation). -/
def ParseError.add_location (e : ParseError) (loc : ParseLocation) : ParseError :=
  { e with locations := e.locations ++ [loc] }

/-- Rendering of a `ParseLocation`, used only inside the Debug rendering
of a `ParseError` (the exact Debug text of the external crate is not
observed by any claim; this model keeps it concrete and executable). -/
def ParseLocation.describe : ParseLocation → String
  | .field name => "Field(" ++ name ++ ")"
  | .index n => "Index(" ++ toString n ++ ")"

/-- Model of the Debug rendering of an `asn1::ParseError`, interpolated
by the materializer into the value-error message. -/
def ParseError.debugRepr (e : ParseError) : String :=
  "ParseError(kind=" ++ toString e.kind ++ ", locations=["
    ++ String.intercalate ", " (e.locations.map ParseLocation.describe) ++ "])"

/-- Model of `asn1::WriteError` from the external `asn1` crate.  The
version consumed by this repository has exactly the allocation-exhaustion
case (the Rust code matches it exhaustively with the single pattern
`asn1::WriteError::AllocationError`). -/
inductive WriteError where
  | AllocationError
  deriving DecidableEq, Repr

/-- Model of one entry of `openssl::error::ErrorStack`: the Rust code
reads only `e.code()` from each entry, so an entry is its numeric code. -/
structure OpenSSLError where
  code : Nat
  deriving DecidableEq, Repr

/-- Model of `openssl::error::ErrorStack`: the ordered list of drained
diagnostic entries, as returned by `errors()` in reported order. -/
structure ErrorStack where
  errors : List OpenSSLError
  deriving DecidableEq, Repr

/-- Model of a host-runtime (Python) object handle, with just the shapes
this translation layer constructs: the result of
`_OpenSSLErrorWithText.from_err`, the `InternalError` instance built by
the materializer, and an abstract handle for anything else. -/
inductive PyObject where
  | sslErrorWithText (code : Nat) (text : String)
  | internalErrorInstance (message : String) (records : List PyObject)
  | obj (id : Nat)

/-- Model of `pyo3::PyErr`: a host exception value.  `valueError`,
`memoryError` and `typeError` model `PyValueError::new_err`,
`PyMemoryError::new_err` and the `TypeError` pyo3 raises for a failed
downcast; `fromInstance` models `PyErr::from_instance`; `hostErr` is an
abstract handle for any other pre-existing host exception. -/
inductive PyErr where
  | valueError (message : String)
  | memoryError (message : String)
  | typeError (message : String)
  | fromInstance (inst : PyObject)
  | hostErr (id : Nat)

/-- Model of `pyo3::PyDowncastError`: the Rust code only forwards it into
`PyErr` via pyo3's own conversion, which formats the source and target
type names into a `TypeError` message. -/
structure PyDowncastError where
  fromType : String
  toType : String
  deriving DecidableEq, Repr

/-- Model of pyo3's `impl From<PyDowncastError> for PyErr` (the `e.into()`
in `error.rs`): a `TypeError` whose message is formatted from the two
type names. -/
def PyDowncastError.toPyErr (e : PyDowncastError) : PyErr :=
  .typeError (e.fromType ++ " object cannot be converted to " ++ e.toType)

/-- Model of `pem::PemError` from the external `pem` crate: the Rust code
observes only its Debug rendering, which it interpolates into a message. -/
structure PemError where
  debugRepr : String
  deriving DecidableEq, Repr

/-- The `CryptographyError` enum of `error.rs`: the Error Union with one
variant per source domain. -/
inductive CryptographyError where
  | Asn1Parse (e : ParseError)
  | Asn1Write (e : WriteError)
  | Py (e : PyErr)
  | OpenSSL (e : ErrorStack)

/-- Whether a `CryptographyError` is the `Asn1Parse` (ParseFailure)
variant. -/
def CryptographyError.isAsn1Parse : CryptographyError → Bool
  | .Asn1Parse _ => true
  | _ => false

/-- Whether a `CryptographyError` is the `Py` (HostRuntimeFailure)
variant. -/
def CryptographyError.isPy : CryptographyError → Bool
  | .Py _ => true
  | _ => false

/-- `impl From<asn1::ParseError> for CryptographyError` in `error.rs`. -/
def fromParseError (e : ParseError) : CryptographyError :=
  CryptographyError.Asn1Parse e

/-- `impl From<asn1::WriteError> for CryptographyError` in `error.rs`. -/
def fromWriteError (e : WriteError) : CryptographyError :=
  CryptographyError.Asn1Write e

/-- `impl From<pyo3::PyErr> for CryptographyError` in `error.rs`. -/
def fromPyErr (e : PyErr) : CryptographyError :=
  CryptographyError.Py e

/-- `impl From<pyo3::PyDowncastError> for CryptographyError` in
`error.rs`: `CryptographyError::Py(e.into())`. -/
def fromPyDowncastError (e : PyDowncastError) : CryptographyError :=
  CryptographyError.Py e.toPyErr

/-- `impl From<openssl::error::ErrorStack> for CryptographyError` in
`error.rs`. -/
def fromErrorStack (e : ErrorStack) : CryptographyError :=
  CryptographyError.OpenSSL e

/-- The fixed documentation reference embedded into the PEM loading
failure message in `error.rs`. -/
def pemDocRef : String :=
  "https://cryptography.io/en/latest/faq/#why-can-t-i-import-my-pem-file"

/-- The message built by `impl From<pem::PemError> for CryptographyError`
in `error.rs`: the format string with the error's Debug rendering
interpolated at the end. -/
def pemErrorMessage (e : PemError) : String :=
  "Unable to load PEM file. See " ++ pemDocRef ++ " for more details. " ++ e.debugRepr

/-- `impl From<pem::PemError> for CryptographyError` in `error.rs`:
absorbed into the `Py` variant as a `PyValueError`. -/
def fromPemError (e : PemError) : CryptographyError :=
  CryptographyError.Py (PyErr.valueError (pemErrorMessage e))

/-- `CryptographyError::add_location` from `error.rs`: forwards the
location into the `ParseError` payload of `Asn1Parse` and rebuilds every
other variant unchanged. -/
def CryptographyError.add_location : CryptographyError → ParseLocation → CryptographyError
  | .Py e, _ => .Py e
  | .Asn1Parse e, loc => .Asn1Parse (e.add_location loc)
  | .Asn1Write e, _ => .Asn1Write e
  | .OpenSSL e, _ => .OpenSSL e

/-- The Result alias of `error.rs`:
`type CryptographyResult<T> = Result<T, CryptographyError>` (the Rust
default for `T` is the host object handle `pyo3::PyObject`). -/
abbrev CryptographyResult (T : Type) : Type :=
  Except CryptographyError T

/-- State of the host runtime as observed by the materializer: whether
each `.expect(...)`-guarded host-runtime operation of the OpenSSL branch
succeeds, and the text that `_OpenSSLErrorWithText.from_err` attaches to
a given error code. -/
structure HostState where
  cryptographyExceptionsImportOk : Bool
  internalErrorAttrOk : Bool
  bindingImportOk : Bool
  opensslErrorAttrOk : Bool
  opensslErrorWithTextAttrOk : Bool
  fromCodeOk : Nat → Bool
  fromErrOk : Nat → Bool
  textForCode : Nat → String
  appendOk : Bool
  internalErrorCallOk : Bool

/-- The fixed diagnostic message passed to `InternalError` in the OpenSSL
branch of `error.rs` (a single Rust string literal spanning several
source lines, hence the embedded newlines and indentation). -/
def opensslMessage : String :=
  "Unknown OpenSSL error. This error is commonly encountered\n                    when another library is not cleaning up the OpenSSL error\n                    stack. If you are using cryptography with another library\n                    that uses OpenSSL try disabling it before reporting a bug.\n                    Otherwise please file an issue at\n                    https://github.com/pyca/cryptography/issues with\n                    information on how to reproduce this."

/-- The per-entry loop of the OpenSSL branch of
`From<CryptographyError> for pyo3::PyErr`: for each drained entry, call
`_OpenSSLError.from_code(e.code())`, then
`_OpenSSLErrorWithText.from_err(err)`, then append to the Python list;
each step is guarded by `.expect(...)`, modelled as `Except.error` with
the panic message. -/
def buildErrorsList (s : HostState) : List OpenSSLError → Except String (List PyObject)
  | [] => .ok []
  | e :: rest =>
    if !s.fromCodeOk e.code then .error "Failed to call from_code"
    else if !s.fromErrOk e.code then .error "Failed to call from_err"
    else if !s.appendOk then .error "List append failed"
    else
      match buildErrorsList s rest with
      | .error msg => .error msg
      | .ok tail => .ok (PyObject.sslErrorWithText e.code (s.textForCode e.code) :: tail)

/-- `impl From<CryptographyError> for pyo3::PyErr` from `error.rs`: the
host-exception materializer.  A returned `Except.error msg` models a
panic of one of the `.expect(msg)` calls in the OpenSSL branch; every
other branch is a pure construction. -/
def pyErrFrom (s : HostState) : CryptographyError → Except String PyErr
  | .Asn1Parse asn1_error =>
    .ok (.valueError ("error parsing asn1 value: " ++ asn1_error.debugRepr))
  | .Asn1Write .AllocationError =>
    .ok (.memoryError "failed to allocate memory while performing ASN.1 serialization")
  | .Py py_error => .ok py_error
  | .OpenSSL error_stack =>
    if !s.cryptographyExceptionsImportOk then .error "Failed to import cryptography module"
    else if !s.internalErrorAttrOk then .error "Failed to get InternalError attribute"
    else if !s.bindingImportOk then .error "Failed to import cryptography module"
    else if !s.opensslErrorAttrOk then .error "Failed to get _OpenSSL attribute"
    else if !s.opensslErrorWithTextAttrOk then .error "Failed to get _OpenSSLErrorWithText attribute"
    else
      match buildErrorsList s error_stack.errors with
      | .error msg => .error msg
      | .ok records =>
        if !s.internalErrorCallOk then .error "Failed to create InternalError"
        else .ok (.fromInstance (.internalErrorInstance opensslMessage records))

/-- Whether the host state resolves every host-runtime operation the
materializer needs for the given error stack. -/
def HostState.resolvesAll (s : HostState) (stack : ErrorStack) : Bool :=
  s.cryptographyExceptionsImportOk &&
  (s.internalErrorAttrOk &&
  (s.bindingImportOk &&
  (s.opensslErrorAttrOk &&
  (s.opensslErrorWithTextAttrOk &&
  (s.appendOk &&
  (s.internalErrorCallOk &&
  stack.errors.all (fun e => s.fromCodeOk e.code && s.fromErrOk e.code)))))))

/-- Whether the host state resolves everything the materializer needs for
the given error value (only the OpenSSL variant touches the host). -/
def resolvesFor (s : HostState) : CryptographyError → Bool
  | .OpenSSL stack => s.resolvesAll stack
  | _ => true

/-- A host state in which every host-runtime operation succeeds and the
two codes of the spec's Scenario A resolve to its two texts. -/
def hostA : HostState where
  cryptographyExceptionsImportOk := true
  internalErrorAttrOk := true
  bindingImportOk := true
  opensslErrorAttrOk := true
  opensslErrorWithTextAttrOk := true
  fromCodeOk := fun _ => true
  fromErrOk := fun _ => true
  textForCode := fun c => if c = 101 then "bad padding" else if c = 202 then "key mismatch" else ""
  appendOk := true
  internalErrorCallOk := true

/-- A host state in which no host-runtime lookup succeeds (for example, a
runtime where the `cryptography.exceptions` module cannot be imported). -/
def deadHost : HostState where
  cryptographyExceptionsImportOk := false
  internalErrorAttrOk := false
  bindingImportOk := false
  opensslErrorAttrOk := false
  opensslErrorWithTextAttrOk := false
  fromCodeOk := fun _ => false
  fromErrOk := fun _ => false
  textForCode := fun _ => ""
  appendOk := false
  internalErrorCallOk := false

/-- The drained backend stack of the spec's Scenario A: codes 101 and
202, in reported order. -/
def stackA : ErrorStack := ⟨[⟨101⟩, ⟨202⟩]⟩

/-- When every per-entry host call succeeds, the materializer's loop
produces exactly one `_OpenSSLErrorWithText` record per drained entry, in
drain order. -/
theorem buildErrorsList_ok (s : HostState) (l : List OpenSSLError)
    (happ : s.appendOk = true)
    (h : ∀ e ∈ l, s.fromCodeOk e.code = true ∧ s.fromErrOk e.code = true) :
    buildErrorsList s l
      = .ok (l.map (fun e => PyObject.sslErrorWithText e.code (s.textForCode e.code))) := by
  induction l with
  | nil => rfl
  | cons e rest ih =>
    have he := h e (List.mem_cons_self e rest)
    have hrest : ∀ x ∈ rest, s.fromCodeOk x.code = true ∧ s.fromErrOk x.code = true :=
      fun x hx => h x (List.mem_cons_of_mem e hx)
    simp [buildErrorsList, he.1, he.2, happ, ih hrest]

/-- When the host state resolves everything the given stack needs, the
materializer returns the `InternalError`-based exception whose record
list is the drained entries mapped in order. -/
theorem pyErrFrom_openssl_ok (s : HostState) (stack : ErrorStack)
    (h : s.resolvesAll stack = true) :
    pyErrFrom s (CryptographyError.OpenSSL stack)
      = .ok (.fromInstance (.internalErrorInstance opensslMessage
          (stack.errors.map (fun e => PyObject.sslErrorWithText e.code (s.textForCode e.code))))) := by
  rw [HostState.resolvesAll] at h
  simp only [Bool.and_eq_true, List.all_eq_true] at h
  obtain ⟨h1, h2, h3, h4, h5, h6, h7, h8⟩ := h
  have hb := buildErrorsList_ok s stack.errors h6 h8
  simp [pyErrFrom, h1, h2, h3, h4, h5, h7, hb]

/-- C1 counterexample: in a host-runtime state where the
`cryptography.exceptions` module cannot be imported, materializing an
`OpenSSL` error value panics (the first `.expect` fires) instead of
completing, so the conversion is not total over every host state. -/
theorem pyErrFrom_panics_on_missing_host_module :
    pyErrFrom deadHost (CryptographyError.OpenSSL ⟨[]⟩)
      = Except.error "Failed to import cryptography module" := rfl

/-- C1 (amended): the conversion of a `CryptographyError` into a host
exception completes without panicking whenever the host runtime resolves
every module, attribute and call the OpenSSL branch needs; for the
`Asn1Parse`, `Asn1Write` and `Py` variants it never touches the host and
so never panics in any host state. -/
theorem pyErrFrom_total_of_resolves (s : HostState) (e : CryptographyError)
    (h : resolvesFor s e = true) :
    ∃ r, pyErrFrom s e = Except.ok r := by
  cases e with
  | Asn1Parse pe => exact ⟨_, rfl⟩
  | Asn1Write we => cases we; exact ⟨_, rfl⟩
  | Py pe => exact ⟨_, rfl⟩
  | OpenSSL stack => exact ⟨_, pyErrFrom_openssl_ok s stack h⟩

/-- C1 witness: the amended totality theorem applied at a concrete fully
resolving host state and the concrete two-entry stack. -/
theorem pyErrFrom_total_of_resolves_witness :
    resolvesFor hostA (CryptographyError.OpenSSL stackA) = true ∧
    ∃ r, pyErrFrom hostA (CryptographyError.OpenSSL stackA) = Except.ok r :=
  ⟨by decide, pyErrFrom_total_of_resolves hostA (CryptographyError.OpenSSL stackA) (by decide)⟩

/-- C2: `add_location` is the identity on every error value that is not
the `Asn1Parse` (ParseFailure) variant: the same variant with the same
payload is returned. -/
theorem add_location_id_of_not_parse (e : CryptographyError) (loc : ParseLocation)
    (h : e.isAsn1Parse = false) :
    e.add_location loc = e := by
  cases e <;> simp_all [CryptographyError.add_location, CryptographyError.isAsn1Parse]

/-- C2 witness: the identity theorem applied at a concrete `Py` value and
a concrete field location. -/
theorem add_location_id_of_not_parse_witness :
    (CryptographyError.Py (PyErr.hostErr 0)).isAsn1Parse = false ∧
    (CryptographyError.Py (PyErr.hostErr 0)).add_location (ParseLocation.field "meh")
      = CryptographyError.Py (PyErr.hostErr 0) :=
  ⟨rfl, add_location_id_of_not_parse (CryptographyError.Py (PyErr.hostErr 0))
    (ParseLocation.field "meh") rfl⟩

/-- C3: on a ParseFailure, two successive `add_location` calls keep the
`Asn1Parse` variant and append the first location then the second to the
end of the original location path, shortening and reordering nothing. -/
theorem add_location_appends_parse (e : ParseError) (l1 l2 : ParseLocation) :
    ((CryptographyError.Asn1Parse e).add_location l1).add_location l2
      = CryptographyError.Asn1Parse { e with locations := e.locations ++ [l1] ++ [l2] } := rfl

/-- C4: each domain's `From` conversion lands in the variant dedicated to
that domain with the original error embedded as the payload: parse errors
in `Asn1Parse`, write errors in `Asn1Write`, host exceptions in `Py`, and
backend error stacks in `OpenSSL`. -/
theorem from_impls_land_in_dedicated_variant :
    (∀ e : ParseError, fromParseError e = CryptographyError.Asn1Parse e) ∧
    (∀ e : WriteError, fromWriteError e = CryptographyError.Asn1Write e) ∧
    (∀ e : PyErr, fromPyErr e = CryptographyError.Py e) ∧
    (∀ e : ErrorStack, fromErrorStack e = CryptographyError.OpenSSL e) :=
  ⟨fun _ => rfl, fun _ => rfl, fun _ => rfl, fun _ => rfl⟩

/-- C5: materializing the allocation case of a serialization failure
yields, in every host-runtime state, the memory-error exception carrying
the fixed diagnostic string and no other payload. -/
theorem allocation_materializes_memory_error (s : HostState) :
    pyErrFrom s (CryptographyError.Asn1Write WriteError.AllocationError)
      = .ok (.memoryError "failed to allocate memory while performing ASN.1 serialization") := rfl

/-- C6: materializing an `OpenSSL` error built from N drained entries, in
a host state that resolves every needed host operation, yields the
`InternalError`-based exception whose record list is exactly the drained
entries mapped one-for-one in drain order, so it has exactly N entries. -/
theorem openssl_materializes_ordered_records (s : HostState) (stack : ErrorStack)
    (h : s.resolvesAll stack = true) :
    pyErrFrom s (CryptographyError.OpenSSL stack)
      = .ok (.fromInstance (.internalErrorInstance opensslMessage
          (stack.errors.map (fun e => PyObject.sslErrorWithText e.code (s.textForCode e.code))))) ∧
    (stack.errors.map (fun e => PyObject.sslErrorWithText e.code (s.textForCode e.code))).length
      = stack.errors.length :=
  ⟨pyErrFrom_openssl_ok s stack h, by simp⟩

/-- C6 witness: the ordered-records theorem applied at the Scenario A
stack (codes 101 and 202) in the fully resolving host state. -/
theorem openssl_materializes_ordered_records_witness :
    hostA.resolvesAll stackA = true ∧
    (pyErrFrom hostA (CryptographyError.OpenSSL stackA)
      = .ok (.fromInstance (.internalErrorInstance opensslMessage
          (stackA.errors.map (fun e => PyObject.sslErrorWithText e.code (hostA.textForCode e.code))))) ∧
    (stackA.errors.map (fun e => PyObject.sslErrorWithText e.code (hostA.textForCode e.code))).length
      = stackA.errors.length) :=
  ⟨by decide, openssl_materializes_ordered_records hostA stackA (by decide)⟩

/-- C7: materializing an `OpenSSL` error built from an empty drained
stack, in a host state that resolves the needed host operations, succeeds
and yields the `InternalError`-based exception with the empty record
list. -/
theorem openssl_empty_stack_materializes_empty_list (s : HostState)
    (h : s.resolvesAll ⟨[]⟩ = true) :
    pyErrFrom s (CryptographyError.OpenSSL ⟨[]⟩)
      = .ok (.fromInstance (.internalErrorInstance opensslMessage [])) :=
  pyErrFrom_openssl_ok s ⟨[]⟩ h

/-- C7 witness: the empty-stack theorem applied at the fully resolving
host state. -/
theorem openssl_empty_stack_materializes_empty_list_witness :
    hostA.resolvesAll ⟨[]⟩ = true ∧
    pyErrFrom hostA (CryptographyError.OpenSSL ⟨[]⟩)
      = .ok (.fromInstance (.internalErrorInstance opensslMessage [])) :=
  ⟨by decide, openssl_empty_stack_materializes_empty_list hostA (by decide)⟩

/-- C8: every PEM loading failure is absorbed into the `Py` variant (not
a dedicated variant) as a value-error whose message contains the fixed
documentation-reference substring, and materializing it yields exactly
that value-error exception in every host state. -/
theorem pem_error_absorbed_into_py_with_doc_ref (s : HostState) (e : PemError) :
    fromPemError e = CryptographyError.Py (PyErr.valueError (pemErrorMessage e)) ∧
    (∃ a b, pemErrorMessage e = a ++ pemDocRef ++ b) ∧
    pyErrFrom s (fromPemError e) = .ok (PyErr.valueError (pemErrorMessage e)) :=
  ⟨rfl,
   ⟨"Unable to load PEM file. See ", " for more details. " ++ e.debugRepr, by
     simp [pemErrorMessage, String.append_assoc]⟩,
   rfl⟩

/-- C9: materializing the `Py` (HostRuntimeFailure) variant is a pure
passthrough: the host exception produced is exactly the wrapped
exception, in every host state. -/
theorem py_materializes_passthrough (s : HostState) (e : PyErr) :
    pyErrFrom s (CryptographyError.Py e) = .ok e := rfl

/-- C10: a `PyDowncastError` is absorbed into the `Py` variant by first
converting it into a host exception via pyo3's own conversion; it never
lands in any other variant. -/
theorem downcast_error_lands_in_py (e : PyDowncastError) :
    fromPyDowncastError e = CryptographyError.Py e.toPyErr ∧
    (fromPyDowncastError e).isPy = true :=
  ⟨rfl, rfl⟩

end Pyca
